import Mathlib

/-!
Verification of the contacts web API (FastAPI/SQLAlchemy application).

Shallow embedding of the authentication and contact-repository logic:

* `src/conf/config.py`        — settings (JWT secrets, TTLs); defaults embedded below.
* `src/services/auth.py`      — token creation/verification (`create_access_token`,
  `create_refresh_token`, `verify_refresh_token`, `get_current_user`).
* `src/api/auth.py`           — `login_user`, `refresh`, `request_email` handlers.
* `src/repository/users.py`   — `UserRepository` lookups and `set_refresh_token`.
* `src/repository/contacts.py`— `ContactRepository` CRUD and `get_birthdays`.
* `src/api/contacts.py`       — the 404 boundary for contact endpoints.

JWTs are modelled as structured values `⟨payload, signingSecret⟩`: `jwt.encode` is
deterministic and injective for a fixed algorithm, so string equality of encoded
tokens coincides with structural equality of (payload, secret).  `jwt.decode`
verifies the signature (secret match) and, when an `exp` claim is present,
rejects the token once `exp < now` (python-jose with zero leeway), raising a
`JWTError` in both cases.  Time instants are integer Unix seconds; SQL `Date`
columns are integer day numbers, and a date compared against a timestamp is
promoted to the midnight instant `day * 86400` (PostgreSQL date→timestamp
promotion; SQLite string comparison agrees on these operands).

Python exceptions other than the ones each handler catches are modelled as
explicit result constructors (`attributeError`, `keyError`), since they escape
the handler.
-/

namespace ContactsApp

/-- Defaults from `src/conf/config.py` (`Settings.JWT_SECRET`). -/
def JWT_SECRET : String := "secret_key"

/-- Defaults from `src/conf/config.py` (`Settings.JWT_REFRESH_SECRET`). -/
def JWT_REFRESH_SECRET : String := "secret_refresh_code"

/-- Default access-token TTL from `src/conf/config.py` (`JWT_EXPIRATION_SECONDS`). -/
def JWT_EXPIRATION_SECONDS : Int := 3600

/-- Seconds in `timedelta(days=10)` — the refresh-token default TTL in
`create_refresh_token` (`src/services/auth.py`). -/
def REFRESH_DEFAULT_SECONDS : Int := 864000

/-- The claim set of a JWT as used by this application: subject, expiry
timestamp, and the refresh discriminator.  `none` models an absent claim. -/
structure JwtPayload where
  sub : Option String
  exp : Option Int
  token_type : Option String
  deriving DecidableEq, Repr

/-- An encoded JWT: the claims plus the secret it was signed with.  Structural
equality models string equality of the encoded token. -/
structure Token where
  payload : JwtPayload
  secret : String
  deriving DecidableEq, Repr

/-- The `JWTError` cases relevant here: bad signature, expired `exp` claim. -/
inductive JwtError where
  | signatureInvalid
  | expiredSignature
  deriving DecidableEq, Repr

/-- Model of `jose.jwt.decode(token, secret, algorithms=[...])`: signature check, then
expiry check (expired iff `exp < now`, zero leeway; absent `exp` passes). -/
def jwtDecode (tok : Token) (secret : String) (now : Int) : Except JwtError JwtPayload :=
  if tok.secret ≠ secret then .error .signatureInvalid
  else
    match tok.payload.exp with
    | some e => if e < now then .error .expiredSignature else .ok tok.payload
    | none => .ok tok.payload

/-- Embedding of `create_access_token(data, expires_delta)` from `src/services/auth.py`.
`data` is `{"sub": username}`; `if expires_delta:` is Python truthiness, so
`Some 0` falls through to the configured default TTL exactly like `None`. -/
def create_access_token (sub : Option String) (expires_delta : Option Int) (now : Int) : Token :=
  let expire : Int :=
    match expires_delta with
    | some d => if d ≠ 0 then now + d else now + JWT_EXPIRATION_SECONDS
    | none => now + JWT_EXPIRATION_SECONDS
  { payload := { sub := sub, exp := some expire, token_type := none }, secret := JWT_SECRET }

/-- Embedding of `create_refresh_token(data, expires_delta)` from `src/services/auth.py`:
same truthiness on `expires_delta`, default `timedelta(days=10)`, adds the
`token_type = "refresh"` claim and signs with the refresh secret. -/
def create_refresh_token (sub : Option String) (expires_delta : Option Int) (now : Int) : Token :=
  let expire : Int :=
    match expires_delta with
    | some d => if d ≠ 0 then now + d else now + REFRESH_DEFAULT_SECONDS
    | none => now + REFRESH_DEFAULT_SECONDS
  { payload := { sub := sub, exp := some expire, token_type := some "refresh" },
    secret := JWT_REFRESH_SECRET }

/-- A row of the `users` table (`src/database/models.py`); fields not touched
by the verified operations (creation timestamp, role) are omitted. -/
structure User where
  id : Nat
  username : String
  email : String
  hashed_password : String
  confirmed : Bool
  refresh_token : Option Token
  avatar : Option String
  deriving DecidableEq, Repr

/-- A row of the `contacts` table (`src/database/models.py`).  All data columns
are nullable; `birth_date` is a `Date` column stored as a day number. -/
structure Contact where
  id : Nat
  first_name : Option String
  last_name : Option String
  email : Option String
  phone : Option String
  birth_date : Option Int
  additional_data : Option String
  user_id : Nat
  deriving DecidableEq, Repr

/-- The persistent store: the two tables. -/
structure DB where
  users : List User
  contacts : List Contact
  deriving DecidableEq, Repr

/-- Embedding of `UserRepository.get_user_by_username`: `select(User).filter_by(username=...)`
with `scalar_one_or_none()` (first matching row or `None`). -/
def getUserByUsername (db : DB) (username : String) : Option User :=
  db.users.find? (fun u => u.username == username)

/-- Embedding of `UserRepository.get_user_by_email`. -/
def getUserByEmail (db : DB) (email : String) : Option User :=
  db.users.find? (fun u => u.email == email)

/-- Embedding of `UserRepository.get_user_by_id`. -/
def getUserById (db : DB) (user_id : Nat) : Option User :=
  db.users.find? (fun u => u.id == user_id)

/-- Helper for `set_refresh_token`: the first row with the given id is fetched
and mutated in place; absent id is a no-op (`if user:` guard). -/
def setRefreshTokenAux : List User → Nat → Token → List User
  | [], _, _ => []
  | u :: rest, uid, tok =>
    if u.id == uid then { u with refresh_token := some tok } :: rest
    else u :: setRefreshTokenAux rest uid tok

/-- Embedding of `UserRepository.set_refresh_token(user_id, refresh_token)`
(`src/repository/users.py`, lines 136–147). -/
def set_refresh_token (db : DB) (user_id : Nat) (tok : Token) : DB :=
  { db with users := setRefreshTokenAux db.users user_id tok }

/-- Result of `verify_refresh_token` (`src/services/auth.py`):
`valid u` — returned the user; `invalid` — returned `None`;
`attributeError` — `user` was `None` and `user.refresh_token` raised an
`AttributeError`, which the `except JWTError` clause does not catch. -/
inductive VerifyRefresh where
  | valid (u : User)
  | invalid
  | attributeError
  deriving DecidableEq, Repr

/-- Embedding of `verify_refresh_token(refresh_token, db)` from `src/services/auth.py`,
lines 106–135: decode with the refresh secret (any `JWTError` → `None`), then
`sub`/`token_type` checks, user lookup, and exact comparison of the presented
token with the stored `user.refresh_token`. -/
def verify_refresh_token (refresh_token : Token) (db : DB) (now : Int) : VerifyRefresh :=
  match jwtDecode refresh_token JWT_REFRESH_SECRET now with
  | .error _ => .invalid
  | .ok payload =>
    match payload.sub with
    | none => .invalid
    | some username =>
      if payload.token_type != some "refresh" then .invalid
      else
        match getUserByUsername db username with
        | none => .attributeError
        | some user =>
          if some refresh_token != user.refresh_token then .invalid
          else .valid user

/-- Result of `get_current_user` (`src/services/auth.py`):
`ok u` — authenticated; `credentialsException` — the HTTP 401 raised for
`JWTError` or unknown user; `keyError` — `payload["sub"]` raised a `KeyError`
(the claim was absent), which `except JWTError` does not catch. -/
inductive CurrentUser where
  | ok (u : User)
  | credentialsException
  | keyError
  deriving DecidableEq, Repr

/-- Embedding of `get_current_user(token, db)` from `src/services/auth.py`, lines 138–168.
Note `username = payload["sub"]` indexes the dict, so an absent `sub` claim
raises `KeyError` before the `if username is None` guard can run. -/
def get_current_user (token : Token) (db : DB) (now : Int) : CurrentUser :=
  match jwtDecode token JWT_SECRET now with
  | .error _ => .credentialsException
  | .ok payload =>
    match payload.sub with
    | none => .keyError
    | some username =>
      match getUserByUsername db username with
      | none => .credentialsException
      | some u => .ok u

/-- The `Token` response schema of `src/schemas.py`. -/
structure TokenPair where
  access_token : Token
  refresh_token : Token
  token_type : String
  deriving DecidableEq, Repr

/-- Result of the login handler: success carries the token pair and the store
after the issued refresh token was persisted; failure is the 401 detail. -/
inductive LoginResult where
  | ok (pair : TokenPair) (db : DB)
  | unauthorized (detail : String)
  deriving DecidableEq, Repr

/-- Embedding of `login_user` from `src/api/auth.py`, lines 69–100.  `verify_password` is
the bcrypt check (`Hash.verify_password`), passed as a parameter since the
hash function is an external collaborator. -/
def login_user (verify_password : String → String → Bool)
    (username password : String) (db : DB) (now : Int) : LoginResult :=
  match getUserByUsername db username with
  | none => .unauthorized "Неправильний логін або пароль"
  | some user =>
    if ¬ verify_password password user.hashed_password then
      .unauthorized "Неправильний логін або пароль"
    else if ¬ user.confirmed then
      .unauthorized "Електронна адреса не підтверджена"
    else
      let access := create_access_token (some user.username) none now
      let rtoken := create_refresh_token (some user.username) none now
      LoginResult.ok ⟨access, rtoken, "bearer"⟩ (set_refresh_token db user.id rtoken)

/-- Result of the `/auth/token-refresh` handler: success, the 401 for an
invalid token, or the propagated `AttributeError` from `verify_refresh_token`. -/
inductive RefreshResult where
  | ok (pair : TokenPair) (db : DB)
  | unauthorized
  | attributeError
  deriving DecidableEq, Repr

/-- Embedding of `refresh` from `src/api/auth.py`, lines 161–188.  Faithful to line 186:
`set_refresh_token(user.id, refresh_token)` persists the *presented* token
`refresh_token`, while the response carries `new_refresh_token`. -/
def refresh (refresh_token : Token) (db : DB) (now : Int) : RefreshResult :=
  match verify_refresh_token refresh_token db now with
  | .attributeError => .attributeError
  | .invalid => .unauthorized
  | .valid user =>
    let access := create_access_token (some user.username) none now
    let new_refresh_token := create_refresh_token (some user.username) none now
    RefreshResult.ok ⟨access, new_refresh_token, "bearer"⟩
      (set_refresh_token db user.id refresh_token)

/-- Result of `/auth/request_email`: `attributeError` — `user` was `None` and
`user.confirmed` raised; `alreadyConfirmed` — returned without scheduling the
mail task; `emailScheduled` — `send_email` background task added. -/
inductive RequestEmailResult where
  | attributeError
  | alreadyConfirmed (message : String)
  | emailScheduled (message : String)
  deriving DecidableEq, Repr

/-- Embedding of `request_email` from `src/api/auth.py`, lines 128–158: `user.confirmed` is
read before any `None` check, so an unknown email faults. -/
def request_email (email : String) (db : DB) : RequestEmailResult :=
  match getUserByEmail db email with
  | none => .attributeError
  | some user =>
    if user.confirmed then .alreadyConfirmed "Ваша електронна пошта вже підтверджена"
    else .emailScheduled "Перевірте свою електронну пошту для підтвердження"

/-- Embedding of `ContactRepository.get_contact_by_id(contact_id, user)`
(`src/repository/contacts.py`, lines 63–76): `filter_by(id=contact_id,
user=user)` with `scalar_one_or_none()`; the relationship filter compares the
owning user, i.e. the `user_id` foreign key. -/
def get_contact_by_id (db : DB) (contact_id : Nat) (user : User) : Option Contact :=
  db.contacts.find? (fun c => c.id == contact_id && c.user_id == user.id)

/-- The `ContactUpdate` schema of `src/schemas.py`, lines 47–60: every field is
`Optional` with default `None`, so a field absent from the request body is
`None` on the model object. -/
structure ContactUpdate where
  first_name : Option String
  last_name : Option String
  email : Option String
  phone : Option String
  birth_date : Option Int
  additional_data : Option String
  deriving DecidableEq, Repr

/-- The field assignments of `ContactRepository.update_contact`: each mutable
column is set to the corresponding attribute of `body`. -/
def applyUpdate (c : Contact) (body : ContactUpdate) : Contact :=
  { c with
    first_name := body.first_name
    last_name := body.last_name
    email := body.email
    phone := body.phone
    birth_date := body.birth_date
    additional_data := body.additional_data }

/-- Committing a mutation of a fetched row: the first row matching the fetch
predicate is replaced by its mutated value. -/
def replaceFirst : List Contact → (Contact → Bool) → Contact → List Contact
  | [], _, _ => []
  | c :: rest, p, c2 => if p c then c2 :: rest else c :: replaceFirst rest p c2

/-- Deleting a fetched row: the first row matching the fetch predicate is
removed. -/
def eraseFirst : List Contact → (Contact → Bool) → List Contact
  | [], _ => []
  | c :: rest, p => if p c then rest else c :: eraseFirst rest p

/-- Embedding of `ContactRepository.update_contact(contact_id, body, user)`
(`src/repository/contacts.py`, lines 95–117): fetch by (id, owner); if found,
overwrite all six mutable columns from `body` and commit; return the contact
or `None`. -/
def update_contact (contact_id : Nat) (body : ContactUpdate) (db : DB) (user : User) :
    Option Contact × DB :=
  match get_contact_by_id db contact_id user with
  | none => (none, db)
  | some c =>
    let c2 := applyUpdate c body
    let contacts2 := replaceFirst db.contacts
      (fun x => x.id == contact_id && x.user_id == user.id) c2
    (some c2, { db with contacts := contacts2 })

/-- Embedding of `ContactRepository.remove_contact(contact_id, user)`
(`src/repository/contacts.py`, lines 119–134). -/
def remove_contact (contact_id : Nat) (db : DB) (user : User) : Option Contact × DB :=
  match get_contact_by_id db contact_id user with
  | none => (none, db)
  | some c =>
    let contacts2 := eraseFirst db.contacts
      (fun x => x.id == contact_id && x.user_id == user.id)
    (some c, { db with contacts := contacts2 })

/-- An HTTP error as surfaced by the API boundary: status code and detail. -/
structure HttpError where
  status : Nat
  detail : String
  deriving DecidableEq, Repr

/-- Embedding of `read_contact` (`src/api/contacts.py`, lines 80–103): absence becomes
`404 "Contact not found"`. -/
def read_contact (contact_id : Nat) (db : DB) (user : User) : Except HttpError Contact :=
  match get_contact_by_id db contact_id user with
  | none => .error ⟨404, "Contact not found"⟩
  | some c => .ok c

/-- Embedding of the `update_contact` handler (`src/api/contacts.py`, lines 125–151). -/
def update_contact_api (contact_id : Nat) (body : ContactUpdate) (db : DB) (user : User) :
    Except HttpError (Contact × DB) :=
  match update_contact contact_id body db user with
  | (none, _) => .error ⟨404, "Contact not found"⟩
  | (some c, db2) => .ok (c, db2)

/-- Embedding of the `remove_contact` handler (`src/api/contacts.py`, lines 153–176). -/
def remove_contact_api (contact_id : Nat) (db : DB) (user : User) :
    Except HttpError (Contact × DB) :=
  match remove_contact contact_id db user with
  | (none, _) => .error ⟨404, "Contact not found"⟩
  | (some c, db2) => .ok (c, db2)

/-- A `Date` column value compared against a timestamp: midnight of that day. -/
def dateTs (day : Int) : Int := day * 86400

/-- The SQL filter of `get_birthdays`: owned by `user`, and
`birth_date >= today AND birth_date <= today + 7 days` where `today` is the
full current instant (`datetime.today()`), the stored date comparing as its
midnight instant; a NULL `birth_date` satisfies neither comparison. -/
def birthdayFilter (user : User) (now : Int) (c : Contact) : Bool :=
  c.user_id == user.id &&
    match c.birth_date with
    | none => false
    | some d => decide (now ≤ dateTs d) && decide (dateTs d ≤ now + 7 * 86400)

/-- Ascending `ORDER BY birth_date`.  All rows passing `birthdayFilter` have a
non-NULL `birth_date`, so the default on `none` is immaterial. -/
def birthOrder (a b : Contact) : Prop :=
  a.birth_date.getD 0 ≤ b.birth_date.getD 0

instance : DecidableRel birthOrder := fun a b =>
  inferInstanceAs (Decidable (a.birth_date.getD 0 ≤ b.birth_date.getD 0))

instance : IsTotal Contact birthOrder :=
  ⟨fun a b => le_total (a.birth_date.getD 0) (b.birth_date.getD 0)⟩

instance : IsTrans Contact birthOrder :=
  ⟨fun _ _ _ hab hbc => le_trans hab hbc⟩

/-- Embedding of `ContactRepository.get_birthdays(user)` (`src/repository/contacts.py`,
lines 136–155): filter by owner and the date window, return rows ordered
ascending by `birth_date`. -/
def get_birthdays (db : DB) (user : User) (now : Int) : List Contact :=
  List.insertionSort birthOrder (db.contacts.filter (birthdayFilter user now))

/-! Concrete stores and tokens used to evaluate the operations on explicit
inputs. -/

/-- A concrete bcrypt stand-in for witnesses: the stored hash is the password
itself.  Only used to instantiate the `verify_password` parameter. -/
def vfEq : String → String → Bool := fun p h => p == h

/-- A refresh token issued at time 0 for user `bob` (expiry `864000`). -/
def c1_old : Token := create_refresh_token (some "bob") none 0

/-- A confirmed user whose stored refresh token is `c1_old`. -/
def c1_user : User :=
  { id := 1, username := "bob", email := "bob@example.com", hashed_password := "hpw",
    confirmed := true, refresh_token := some c1_old, avatar := none }

/-- Store holding only `c1_user`. -/
def c1_db : DB := { users := [c1_user], contacts := [] }

/-- A structurally valid refresh token (refresh secret, unexpired at time 0,
`sub` and `token_type` present) whose subject names no stored user. -/
def c2_token : Token :=
  { payload := { sub := some "ghost", exp := some 1000, token_type := some "refresh" },
    secret := JWT_REFRESH_SECRET }

/-- An empty store: no user matches any subject. -/
def c2_db : DB := { users := [], contacts := [] }

/-- An empty store for the access-token checks. -/
def c4_db : DB := { users := [], contacts := [] }

/-- An access-type token signed with the wrong secret. -/
def c4_badSig : Token :=
  { payload := { sub := some "bob", exp := some 1000, token_type := none },
    secret := "wrong_secret" }

/-- A correctly signed access token already expired at time 50. -/
def c4_expired : Token :=
  { payload := { sub := some "bob", exp := some 10, token_type := none },
    secret := JWT_SECRET }

/-- A correctly signed, unexpired access token with no `sub` claim. -/
def c4_noSub : Token :=
  { payload := { sub := none, exp := some 1000, token_type := none },
    secret := JWT_SECRET }

/-- Owner used for the birthday-query inputs. -/
def c6_user : User :=
  { id := 1, username := "ann", email := "ann@example.com", hashed_password := "hpw",
    confirmed := true, refresh_token := none, avatar := none }

/-- A contact of `c6_user` whose birth date is day 100. -/
def c6_contact : Contact :=
  { id := 1, first_name := some "Ivan", last_name := some "Ivanov",
    email := some "ivan@example.com", phone := some "123", birth_date := some 100,
    additional_data := none, user_id := 1 }

/-- Store holding `c6_user` and `c6_contact`. -/
def c6_db : DB := { users := [c6_user], contacts := [c6_contact] }

/-- A contact of `c6_user` with birth date day 3, for the witness query at
time 0 (midnight of day 0). -/
def c6w_contact : Contact :=
  { id := 2, first_name := some "Olha", last_name := some "Petrenko",
    email := some "olha@example.com", phone := some "456", birth_date := some 3,
    additional_data := none, user_id := 1 }

/-- Store holding `c6_user` and `c6w_contact`. -/
def c6w_db : DB := { users := [c6_user], contacts := [c6w_contact] }

/-- Requesting user of id 1 for the owner-scoping inputs. -/
def c7_req : User :=
  { id := 1, username := "ann", email := "ann@example.com", hashed_password := "hpw",
    confirmed := true, refresh_token := none, avatar := none }

/-- A contact owned by a different user (id 2). -/
def c7_other : Contact :=
  { id := 5, first_name := some "Petro", last_name := some "Shevchenko",
    email := some "petro@example.com", phone := some "789", birth_date := none,
    additional_data := none, user_id := 2 }

/-- A contact owned by `c7_req` itself. -/
def c7_own : Contact :=
  { id := 6, first_name := some "Iryna", last_name := some "Koval",
    email := some "iryna@example.com", phone := some "555", birth_date := some 7,
    additional_data := some "friend", user_id := 1 }

/-- Store holding both contacts. -/
def c7_db : DB := { users := [c7_req], contacts := [c7_other, c7_own] }

/-- An update request used with the owner-scoping inputs. -/
def c7_body : ContactUpdate :=
  { first_name := some "Petro", last_name := none, email := none,
    phone := none, birth_date := none, additional_data := none }

/-- An update request with only the first name set; the rest are absent. -/
def c8_body : ContactUpdate :=
  { first_name := some "Iryna", last_name := none, email := none,
    phone := none, birth_date := none, additional_data := none }

/-- Owner for the full-replace update inputs. -/
def c8_user : User :=
  { id := 1, username := "ann", email := "ann@example.com", hashed_password := "hpw",
    confirmed := true, refresh_token := none, avatar := none }

/-- A fully populated contact of `c8_user`. -/
def c8_contact : Contact :=
  { id := 9, first_name := some "Olena", last_name := some "Bondar",
    email := some "olena@example.com", phone := some "777", birth_date := some 42,
    additional_data := some "colleague", user_id := 1 }

/-- Store holding `c8_user` and `c8_contact`. -/
def c8_db : DB := { users := [c8_user], contacts := [c8_contact] }

/-- A confirmed user for the login witness. -/
def c5_confirmed : User :=
  { id := 1, username := "bob", email := "bob@example.com", hashed_password := "pw",
    confirmed := true, refresh_token := none, avatar := none }

/-- An unconfirmed user with the same credentials shape. -/
def c5_unconfirmed : User :=
  { id := 2, username := "eve", email := "eve@example.com", hashed_password := "pw",
    confirmed := false, refresh_token := none, avatar := none }

/-- Store holding the two login-witness users. -/
def c5_db : DB := { users := [c5_confirmed, c5_unconfirmed], contacts := [] }

/-- Store for the second-login scenario: one confirmed user `bob`. -/
def c3_db : DB := { users := [c5_confirmed], contacts := [] }

/-- Token pair issued by the first login (time 0). -/
def c3_p1 : TokenPair :=
  { access_token := create_access_token (some "bob") none 0,
    refresh_token := create_refresh_token (some "bob") none 0,
    token_type := "bearer" }

/-- Store after the first login persisted its refresh token. -/
def c3_db1 : DB := set_refresh_token c3_db 1 c3_p1.refresh_token

/-- Token pair issued by the second login (time 1). -/
def c3_p2 : TokenPair :=
  { access_token := create_access_token (some "bob") none 1,
    refresh_token := create_refresh_token (some "bob") none 1,
    token_type := "bearer" }

/-- Store after the second login replaced the stored refresh token. -/
def c3_db2 : DB := set_refresh_token c3_db1 1 c3_p2.refresh_token

/-- A user already confirmed, for the resend-confirmation inputs. -/
def c9_db : DB := { users := [c5_confirmed], contacts := [] }

/-! Helper lemmas shared by the claim theorems. -/

/-- Characterization of the birthday-window SQL filter. -/
lemma birthdayFilter_eq_true (user : User) (now : Int) (c : Contact) :
    birthdayFilter user now c = true ↔
      c.user_id = user.id ∧
        ∃ d, c.birth_date = some d ∧ now ≤ dateTs d ∧ dateTs d ≤ now + 7 * 86400 := by
  unfold birthdayFilter
  cases h : c.birth_date with
  | none => simp [h]
  | some d => simp [h, Bool.and_eq_true, beq_iff_eq, decide_eq_true_eq]

/-- Replacing the fetched (first-matching) row by a row that still matches
makes the subsequent fetch return the replacement. -/
lemma replaceFirst_find? (l : List Contact) (p : Contact → Bool) (c c2 : Contact)
    (h : l.find? p = some c) (h2 : p c2 = true) :
    (replaceFirst l p c2).find? p = some c2 := by
  induction l with
  | nil => simp at h
  | cons a rest ih =>
    by_cases hpa : p a = true
    · simp [replaceFirst, hpa, List.find?_cons_of_pos, h2]
    · have h3 : rest.find? p = some c := by
        rw [List.find?_cons_of_neg _ hpa] at h; exact h
      simp [replaceFirst, hpa, List.find?_cons_of_neg, ih h3]

/-- A user found by a username lookup carries that username. -/
lemma getUserByUsername_username {db : DB} {uname : String} {u : User}
    (h : getUserByUsername db uname = some u) : u.username = uname := by
  have hfind : db.users.find? (fun x => x.username == uname) = some u := h
  have := List.find?_some hfind
  simpa using this

/-- Persisting a refresh token does not change the identifier column. -/
lemma setRefreshTokenAux_map_id (l : List User) (uid : Nat) (tok : Token) :
    (setRefreshTokenAux l uid tok).map User.id = l.map User.id := by
  induction l with
  | nil => rfl
  | cons a rest ih =>
    by_cases hid : (a.id == uid) = true
    · simp [setRefreshTokenAux, hid]
    · simp [setRefreshTokenAux, hid, ih]

/-- With unique user ids, replacing the refresh token of the user found by a
username lookup updates exactly that user as seen by the same lookup. -/
lemma find?_setRefreshTokenAux (l : List User) (uname : String) (u : User) (tok : Token)
    (hfind : l.find? (fun x => x.username == uname) = some u)
    (hnd : (l.map User.id).Nodup) :
    (setRefreshTokenAux l u.id tok).find? (fun x => x.username == uname)
      = some { u with refresh_token := some tok } := by
  induction l with
  | nil => simp at hfind
  | cons a rest ih =>
    by_cases ha : (a.username == uname) = true
    · have hu : u = a := by
        rw [List.find?_cons_of_pos (p := fun x : User => x.username == uname) _ ha] at hfind
        exact (Option.some.inj hfind).symm
      subst hu
      rw [show setRefreshTokenAux (u :: rest) u.id tok
            = { u with refresh_token := some tok } :: rest by simp [setRefreshTokenAux]]
      rw [List.find?_cons_of_pos (p := fun x : User => x.username == uname) _ (by simpa using ha)]
    · have hfr : rest.find? (fun x => x.username == uname) = some u := by
        rw [List.find?_cons_of_neg (p := fun x : User => x.username == uname) _ ha] at hfind
        exact hfind
      have hmem : u ∈ rest := List.mem_of_find?_eq_some hfr
      have hnd2 : (∀ x ∈ rest, ¬ x.id = a.id) ∧ (rest.map User.id).Nodup := by
        simpa using hnd
      have hne : ¬ (a.id == u.id) = true := by
        simp only [beq_iff_eq]
        intro he
        exact hnd2.1 u hmem he.symm
      rw [show setRefreshTokenAux (a :: rest) u.id tok
            = a :: setRefreshTokenAux rest u.id tok by simp [setRefreshTokenAux, hne]]
      rw [List.find?_cons_of_neg (p := fun x : User => x.username == uname) _ ha]
      exact ih hfr hnd2.2

/-- Store-level wrapper for `find?_setRefreshTokenAux`. -/
lemma getUserByUsername_after_set {db : DB} {uname : String} {u : User} (tok : Token)
    (h : getUserByUsername db uname = some u)
    (hnd : (db.users.map User.id).Nodup) :
    getUserByUsername (set_refresh_token db u.id tok) uname
      = some { u with refresh_token := some tok } :=
  find?_setRefreshTokenAux db.users uname u tok h hnd

/-- Inversion of a successful login: the user was found by username, the
returned refresh token is the freshly issued one, and the store has it
persisted for that user's id. -/
lemma login_ok_inv {verify : String → String → Bool} {username password : String}
    {db : DB} {now : Int} {p : TokenPair} {db1 : DB}
    (h : login_user verify username password db now = LoginResult.ok p db1) :
    ∃ u, getUserByUsername db username = some u
      ∧ p.refresh_token = create_refresh_token (some u.username) none now
      ∧ db1 = set_refresh_token db u.id (create_refresh_token (some u.username) none now) := by
  unfold login_user at h
  cases hu : getUserByUsername db username with
  | none => rw [hu] at h; exact absurd h (by simp)
  | some u =>
    rw [hu] at h
    by_cases hv : verify password u.hashed_password = true
    · by_cases hc : u.confirmed = true
      · simp only [hv, hc, not_true, if_false, ite_false] at h
        refine ⟨u, rfl, ?_, ?_⟩
        · have := congrArg (fun r => match r with
            | LoginResult.ok q _ => q.refresh_token
            | LoginResult.unauthorized _ => create_refresh_token none none 0) h
          simpa using this.symm
        · have := congrArg (fun r => match r with
            | LoginResult.ok _ d => d
            | LoginResult.unauthorized _ => db) h
          simpa using this.symm
      · simp only [hv, hc] at h
        exact absurd h (by simp)
    · simp only [hv] at h
      exact absurd h (by simp)

/-- Any refresh token whose subject resolves to a user holding a *different*
stored token is rejected (returns `None`), whatever its expiry. -/
lemma verify_refresh_token_invalid_of_mismatch (t : Token) (db : DB) (now : Int)
    (hlookup : ∀ s, t.payload.sub = some s →
      ∃ w, getUserByUsername db s = some w ∧ some t ≠ w.refresh_token) :
    verify_refresh_token t db now = VerifyRefresh.invalid := by
  unfold verify_refresh_token
  cases hdec : jwtDecode t JWT_REFRESH_SECRET now with
  | error e => rfl
  | ok payload =>
    have hpl : payload = t.payload := by
      unfold jwtDecode at hdec
      split at hdec
      · cases hdec
      · split at hdec
        · split at hdec
          · cases hdec
          · exact (Except.ok.inj hdec).symm
        · exact (Except.ok.inj hdec).symm
    subst hpl
    cases hsub : t.payload.sub with
    | none => simp [hsub]
    | some s =>
      obtain ⟨w, hw, hwne⟩ := hlookup s hsub
      have hbne : (some t != w.refresh_token) = true := by
        simpa [bne_iff_ne] using hwne
      by_cases hty : (t.payload.token_type != some "refresh") = true
      · simp [hsub, hty]
      · simp [hsub, hty, hw, hbne]

/-! Claim theorems. -/

/-- C10: `create_access_token` with `expires_delta = 0` behaves exactly like an
absent TTL — the token expires at `now` plus the configured default — and
`create_refresh_token` with `expires_delta = 0` expires at `now + 10 days`;
neither call issues an already-expired token on that input. -/
theorem zero_expires_delta_uses_default (sub : Option String) (now : Int) :
    create_access_token sub (some 0) now = create_access_token sub none now
    ∧ (create_access_token sub (some 0) now).payload.exp = some (now + JWT_EXPIRATION_SECONDS)
    ∧ now < now + JWT_EXPIRATION_SECONDS
    ∧ create_refresh_token sub (some 0) now = create_refresh_token sub none now
    ∧ (create_refresh_token sub (some 0) now).payload.exp = some (now + REFRESH_DEFAULT_SECONDS)
    ∧ now < now + REFRESH_DEFAULT_SECONDS := by
  refine ⟨rfl, rfl, ?_, rfl, rfl, ?_⟩
  · unfold JWT_EXPIRATION_SECONDS; omega
  · unfold REFRESH_DEFAULT_SECONDS; omega

/-- C5: login answers with the identical 401 detail for an unknown username
and for a wrong password, and with a distinct 401 detail (and never a token)
for correct credentials on an unconfirmed account. -/
theorem login_error_message_uniformity (verify : String → String → Bool)
    (username password : String) (db : DB) (now : Int) :
    (getUserByUsername db username = none →
        login_user verify username password db now =
          LoginResult.unauthorized "Неправильний логін або пароль")
    ∧ (∀ u, getUserByUsername db username = some u →
        verify password u.hashed_password = false →
        login_user verify username password db now =
          LoginResult.unauthorized "Неправильний логін або пароль")
    ∧ (∀ u, getUserByUsername db username = some u →
        verify password u.hashed_password = true → u.confirmed = false →
        login_user verify username password db now =
          LoginResult.unauthorized "Електронна адреса не підтверджена"
        ∧ ∀ p db2, login_user verify username password db now ≠ LoginResult.ok p db2)
    ∧ "Неправильний логін або пароль" ≠ "Електронна адреса не підтверджена" := by
  refine ⟨?_, ?_, ?_, by decide⟩
  · intro h; unfold login_user; rw [h]
  · intro u h hv; unfold login_user; rw [h]; simp [hv]
  · intro u h hv hc
    constructor
    · unfold login_user; rw [h]; simp [hv, hc]
    · intro p db2; unfold login_user; rw [h]; simp [hv, hc]

/-- Witness for C5 on the concrete store `c5_db`. -/
theorem login_error_message_uniformity_witness :
    login_user vfEq "nosuch" "pw" c5_db 0 =
      LoginResult.unauthorized "Неправильний логін або пароль"
    ∧ login_user vfEq "bob" "wrong" c5_db 0 =
      LoginResult.unauthorized "Неправильний логін або пароль"
    ∧ (login_user vfEq "eve" "pw" c5_db 0 =
        LoginResult.unauthorized "Електронна адреса не підтверджена"
       ∧ ∀ p db2, login_user vfEq "eve" "pw" c5_db 0 ≠ LoginResult.ok p db2) :=
  ⟨(login_error_message_uniformity vfEq "nosuch" "pw" c5_db 0).1 (by decide),
   (login_error_message_uniformity vfEq "bob" "wrong" c5_db 0).2.1 c5_confirmed
     (by decide) (by decide),
   (login_error_message_uniformity vfEq "eve" "pw" c5_db 0).2.2.1 c5_unconfirmed
     (by decide) (by decide) rfl⟩

/-- C9: `request_email` faults (uncaught `AttributeError`) when the email
belongs to no user, and for an already-confirmed user returns the
already-confirmed message without scheduling the confirmation mail. -/
theorem request_email_unknown_faults (db : DB) (email : String) :
    (getUserByEmail db email = none →
        request_email email db = RequestEmailResult.attributeError)
    ∧ (∀ u, getUserByEmail db email = some u → u.confirmed = true →
        request_email email db =
          RequestEmailResult.alreadyConfirmed "Ваша електронна пошта вже підтверджена"
        ∧ ∀ m, request_email email db ≠ RequestEmailResult.emailScheduled m) := by
  constructor
  · intro h; unfold request_email; rw [h]
  · intro u h hc
    constructor
    · unfold request_email; rw [h]; simp [hc]
    · intro m; unfold request_email; rw [h]; simp [hc]

/-- Witness for C9 on the concrete store `c9_db`. -/
theorem request_email_unknown_faults_witness :
    request_email "ghost@example.com" c9_db = RequestEmailResult.attributeError
    ∧ (request_email "bob@example.com" c9_db =
        RequestEmailResult.alreadyConfirmed "Ваша електронна пошта вже підтверджена"
       ∧ ∀ m, request_email "bob@example.com" c9_db ≠ RequestEmailResult.emailScheduled m) :=
  ⟨(request_email_unknown_faults c9_db "ghost@example.com").1 (by decide),
   (request_email_unknown_faults c9_db "bob@example.com").2 c5_confirmed (by decide) rfl⟩

/-- C7: a contact returned by the owner-scoped fetch always belongs to the
requesting user, and when no contact with the requested id is owned by the
requester (missing or owned by someone else) the read, update and delete
endpoints all answer `404 "Contact not found"`. -/
theorem contact_owner_scoping (db : DB) (contact_id : Nat) (user : User)
    (body : ContactUpdate) :
    (∀ c, get_contact_by_id db contact_id user = some c →
        c ∈ db.contacts ∧ c.id = contact_id ∧ c.user_id = user.id)
    ∧ ((∀ c, c ∈ db.contacts → ¬(c.id = contact_id ∧ c.user_id = user.id)) →
        read_contact contact_id db user = Except.error ⟨404, "Contact not found"⟩
        ∧ update_contact_api contact_id body db user = Except.error ⟨404, "Contact not found"⟩
        ∧ remove_contact_api contact_id db user = Except.error ⟨404, "Contact not found"⟩) := by
  constructor
  · intro c h
    have hm := List.mem_of_find?_eq_some h
    have hp := List.find?_some h
    simp only [Bool.and_eq_true, beq_iff_eq] at hp
    exact ⟨hm, hp.1, hp.2⟩
  · intro hnone
    have hfind : db.contacts.find? (fun c => c.id == contact_id && c.user_id == user.id)
        = none := by
      rw [List.find?_eq_none]
      intro x hx
      have hnx := hnone x hx
      simp only [Bool.and_eq_true, beq_iff_eq]
      exact hnx
    refine ⟨?_, ?_, ?_⟩
    · simp only [read_contact, get_contact_by_id, hfind]
    · simp only [update_contact_api, update_contact, get_contact_by_id, hfind]
    · simp only [remove_contact_api, remove_contact, get_contact_by_id, hfind]

/-- Witness for C7: contact 6 is owned by the requester; contact 5 belongs to
user 2 and all three endpoints return 404 for it. -/
theorem contact_owner_scoping_witness :
    (c7_own ∈ c7_db.contacts ∧ c7_own.id = 6 ∧ c7_own.user_id = c7_req.id)
    ∧ (read_contact 5 c7_db c7_req = Except.error ⟨404, "Contact not found"⟩
       ∧ update_contact_api 5 c7_body c7_db c7_req = Except.error ⟨404, "Contact not found"⟩
       ∧ remove_contact_api 5 c7_db c7_req = Except.error ⟨404, "Contact not found"⟩) :=
  ⟨(contact_owner_scoping c7_db 6 c7_req c7_body).1 c7_own (by decide),
   (contact_owner_scoping c7_db 5 c7_req c7_body).2 (by decide)⟩

/-- C8: updating an existing owned contact overwrites all six mutable fields
with exactly the request's values — an absent field is stored as absent — and
preserves the contact's id and owner; the stored row equals the returned one. -/
theorem update_contact_full_replace (db : DB) (contact_id : Nat) (body : ContactUpdate)
    (user : User) (c : Contact) (h : get_contact_by_id db contact_id user = some c) :
    ∃ c2 db2, update_contact contact_id body db user = (some c2, db2)
      ∧ c2.first_name = body.first_name ∧ c2.last_name = body.last_name
      ∧ c2.email = body.email ∧ c2.phone = body.phone
      ∧ c2.birth_date = body.birth_date ∧ c2.additional_data = body.additional_data
      ∧ c2.id = c.id ∧ c2.user_id = c.user_id
      ∧ get_contact_by_id db2 contact_id user = some c2 := by
  have hfind : db.contacts.find? (fun x => x.id == contact_id && x.user_id == user.id)
      = some c := h
  have hpc := List.find?_some hfind
  have hp2 : (fun x => x.id == contact_id && x.user_id == user.id) (applyUpdate c body)
      = true := by simpa [applyUpdate] using hpc
  refine ⟨applyUpdate c body,
    { db with contacts := replaceFirst db.contacts (fun x => x.id == contact_id && x.user_id == user.id) (applyUpdate c body) },
    ?_, rfl, rfl, rfl, rfl, rfl, rfl, rfl, rfl, ?_⟩
  · simp only [update_contact, get_contact_by_id, hfind]
  · exact replaceFirst_find? _ _ _ _ hfind hp2

/-- Witness for C8 on the concrete store `c8_db`. -/
theorem update_contact_full_replace_witness :
    ∃ c2 db2, update_contact 9 c8_body c8_db c8_user = (some c2, db2)
      ∧ c2.first_name = c8_body.first_name ∧ c2.last_name = c8_body.last_name
      ∧ c2.email = c8_body.email ∧ c2.phone = c8_body.phone
      ∧ c2.birth_date = c8_body.birth_date ∧ c2.additional_data = c8_body.additional_data
      ∧ c2.id = c8_contact.id ∧ c2.user_id = c8_contact.user_id
      ∧ get_contact_by_id db2 9 c8_user = some c2 :=
  update_contact_full_replace c8_db 9 c8_body c8_user c8_contact (by decide)

/-- C6 counterexample: at one second past midnight of day 100 (`today` is day
100), the contact with birth date equal to `today` is *not* returned, so the
window is not inclusive at the lower end as claimed. -/
theorem get_birthdays_excludes_today_counterexample :
    c6_contact ∉ get_birthdays c6_db c6_user (100 * 86400 + 1)
    ∧ get_birthdays c6_db c6_user (100 * 86400 + 1) = []
    ∧ c6_contact ∈ c6_db.contacts
    ∧ c6_contact.user_id = c6_user.id
    ∧ c6_contact.birth_date = some 100 := by
  refine ⟨by decide, by decide, by decide, rfl, rfl⟩

/-- C6 (amended): the birthday query returns exactly the requester's contacts
whose birth date, taken as its midnight instant, lies in `[now, now + 7 days]`
for the exact query instant `now`, ordered ascending by birth date, with no
year wraparound; hence a birth date of today+1 is included and today+10 is
not, but today itself only when the query runs exactly at midnight. -/
theorem get_birthdays_window_spec (db : DB) (user : User) (now : Int) :
    (∀ c, c ∈ get_birthdays db user now ↔
        c ∈ db.contacts ∧ c.user_id = user.id ∧
          ∃ d, c.birth_date = some d ∧ now ≤ dateTs d ∧ dateTs d ≤ now + 7 * 86400)
    ∧ List.Sorted birthOrder (get_birthdays db user now) := by
  constructor
  · intro c
    rw [get_birthdays, (List.perm_insertionSort birthOrder _).mem_iff, List.mem_filter,
      birthdayFilter_eq_true]
  · exact List.sorted_insertionSort birthOrder _

/-- Witness for C6 (amended): birth date day 3 queried at midnight of day 0 is
returned, and the result is sorted. -/
theorem get_birthdays_window_spec_witness :
    c6w_contact ∈ get_birthdays c6w_db c6_user 0
    ∧ List.Sorted birthOrder (get_birthdays c6w_db c6_user 0) :=
  ⟨((get_birthdays_window_spec c6w_db c6_user 0).1 c6w_contact).mpr
      ⟨by decide, rfl, 3, rfl, by decide, by decide⟩,
   (get_birthdays_window_spec c6w_db c6_user 0).2⟩

/-- C1: on a successful refresh the handler returns a freshly issued refresh
token but persists the *presented* one — here the store is unchanged (it still
holds `c1_old`) while the returned refresh token differs from the stored one. -/
theorem refresh_persists_presented_token :
    refresh c1_old c1_db 100 =
      RefreshResult.ok
        { access_token := create_access_token (some "bob") none 100,
          refresh_token := create_refresh_token (some "bob") none 100,
          token_type := "bearer" }
        c1_db
    ∧ create_refresh_token (some "bob") none 100 ≠ c1_old
    ∧ c1_user.refresh_token = some c1_old := by
  refine ⟨by decide, by decide, rfl⟩

/-- C2: a well-signed, unexpired refresh token with `sub` and
`token_type = "refresh"` whose subject matches no stored user makes
`verify_refresh_token` raise (`AttributeError` on `None.refresh_token`)
instead of returning `None`. -/
theorem verify_refresh_token_unknown_user_raises :
    verify_refresh_token c2_token c2_db 0 = VerifyRefresh.attributeError
    ∧ VerifyRefresh.attributeError ≠ VerifyRefresh.invalid := by
  refine ⟨by decide, by decide⟩

/-- C4: `get_current_user` answers the 401 credentials exception for a bad
signature and for an expired token, but an absent `sub` claim escapes as a
`KeyError` (`payload["sub"]`) rather than the 401 the claim states. -/
theorem get_current_user_missing_sub_raises :
    get_current_user c4_badSig c4_db 50 = CurrentUser.credentialsException
    ∧ get_current_user c4_expired c4_db 50 = CurrentUser.credentialsException
    ∧ get_current_user c4_noSub c4_db 50 = CurrentUser.keyError
    ∧ CurrentUser.keyError ≠ CurrentUser.credentialsException := by
  refine ⟨by decide, by decide, by decide, by decide⟩

/-- C3: under unique user ids, after a second successful login for the same
account has issued and persisted a new refresh token, the user found by that
username holds a token different from the first login's refresh token, and
presenting the first login's refresh token to `verify_refresh_token` is
rejected (`None`) at any time — expired or not. -/
theorem single_refresh_token_invariant
    (verify : String → String → Bool) (username password : String) (db : DB)
    (n1 n2 now : Int) (p1 p2 : TokenPair) (db1 db2 : DB)
    (hnd : (db.users.map User.id).Nodup)
    (h1 : login_user verify username password db n1 = LoginResult.ok p1 db1)
    (h2 : login_user verify username password db1 n2 = LoginResult.ok p2 db2)
    (hne : n1 ≠ n2) :
    (∃ u2, getUserByUsername db2 username = some u2
        ∧ u2.refresh_token ≠ some p1.refresh_token)
    ∧ verify_refresh_token p1.refresh_token db2 now = VerifyRefresh.invalid := by
  obtain ⟨u, hu, hp1, hdb1⟩ := login_ok_inv h1
  obtain ⟨u1, hu1, hp2, hdb2⟩ := login_ok_inv h2
  have huname : u.username = username := getUserByUsername_username hu
  have hu1' : getUserByUsername db1 username
      = some { u with refresh_token := some (create_refresh_token (some u.username) none n1) } := by
    rw [hdb1]
    exact getUserByUsername_after_set _ hu hnd
  have hu1eq : u1
      = { u with refresh_token := some (create_refresh_token (some u.username) none n1) } :=
    Option.some.inj (hu1.symm.trans hu1')
  have hnd1 : (db1.users.map User.id).Nodup := by
    rw [hdb1]
    show ((setRefreshTokenAux db.users u.id _).map User.id).Nodup
    rw [setRefreshTokenAux_map_id]
    exact hnd
  have hu2' : getUserByUsername db2 username
      = some { u1 with refresh_token := some (create_refresh_token (some u1.username) none n2) } := by
    rw [hdb2]
    exact getUserByUsername_after_set _ hu1 hnd1
  have hu1u : u1.username = u.username := by rw [hu1eq]
  have htok : create_refresh_token (some u.username) none n1
      ≠ create_refresh_token (some u1.username) none n2 := by
    rw [hu1u]
    intro he
    have hexp := congrArg (fun t => t.payload.exp) he
    simp only [create_refresh_token, Option.some.injEq] at hexp
    exact hne (by omega)
  constructor
  · refine ⟨_, hu2', ?_⟩
    show some (create_refresh_token (some u1.username) none n2) ≠ some p1.refresh_token
    rw [hp1]
    intro hcon
    exact htok (Option.some.inj hcon).symm
  · apply verify_refresh_token_invalid_of_mismatch
    intro s hs
    have hsu : s = u.username := by
      rw [hp1] at hs
      simpa [create_refresh_token] using hs.symm
    refine ⟨{ u1 with refresh_token := some (create_refresh_token (some u1.username) none n2) }, ?_, ?_⟩
    · rw [hsu, huname]
      exact hu2'
    · show some p1.refresh_token
        ≠ ({ u1 with refresh_token := some (create_refresh_token (some u1.username) none n2) } : User).refresh_token
      rw [hp1]
      intro hcon
      exact htok (Option.some.inj hcon)

/-- Witness for C3: two logins of `bob` at times 0 and 1; the first refresh
token is no longer the stored one and is rejected at time 5. -/
theorem single_refresh_token_invariant_witness :
    (∃ u2, getUserByUsername c3_db2 "bob" = some u2
        ∧ u2.refresh_token ≠ some c3_p1.refresh_token)
    ∧ verify_refresh_token c3_p1.refresh_token c3_db2 5 = VerifyRefresh.invalid :=
  single_refresh_token_invariant vfEq "bob" "pw" c3_db 0 1 5 c3_p1 c3_p2 c3_db1 c3_db2
    (by decide) (by decide) (by decide) (by decide)

end ContactsApp
